import Mathlib

/-!
Verification of the intelligent-commerce-agent repository.

This file shallowly embeds the deterministic decision logic of the
repository (src/tools.py and src/graph.py) in Lean 4 and proves the
frozen claims about it.

Modelling conventions:
* Strings are Lean `String`s; Python `str.lower()` is `strLower` below
  (inputs are ASCII in this system; the ASCII-only behaviour of Lean's
  `Char.toLower` matches Python on those inputs).  List-backed re-definitions
  of lower/strip are used because the core `String.map`-based versions are
  irreducible to the kernel.
* Python `sub in s` (substring test) is `strContains s sub`, defined below.
* Timestamps: the code parses ISO-8601 strings with `datetime.fromisoformat`
  and subtracts; we abstract a parsed timestamp to its Unix-epoch second
  count as an `Int`, and elapsed minutes to an exact rational.
* File I/O (`load_products` / `load_orders`) is abstracted to injected
  `Except String _` values: `.ok data` models a successful load of the JSON
  file, `.error e` models the `OSError`/`JSONDecodeError` raised by
  `open`/`json.load`.  Python `try`/`except` blocks become `match`es on
  those values.
* Python dicts that are used as string-keyed records become structures;
  the heterogeneous `tool_results` dict becomes an association list
  `List (String × ToolResult)` in insertion order (each key is assigned at
  most once per request, so association-list lookup is dict lookup).
-/

/-! ## String helpers (Python substring / startswith / split semantics) -/

/-- Does the list start with the given pattern?  (Helper for substring and
startswith tests; first argument is the list, second the pattern.) -/
def listStarts : List Char → List Char → Bool
  | _, [] => true
  | [], _ :: _ => false
  | a :: as, b :: bs => a == b && listStarts as bs

/-- Does `sub` occur contiguously inside `s`?  Models Python `sub in s`. -/
def listHasSub : List Char → List Char → Bool
  | [], sub => sub.isEmpty
  | c :: rest, sub => listStarts (c :: rest) sub || listHasSub rest sub

/-- Python `sub in s` on strings. -/
def strContains (s sub : String) : Bool := listHasSub s.data sub.data

/-- Python `s.startswith(p)` on strings. -/
def strStarts (s p : String) : Bool := listStarts s.data p.data

/-- Python `s.startswith((p1, p2, ...))`: true if any listed piece starts `s`. -/
def startsAny (s : String) (ps : List String) : Bool := ps.any (strStarts s)

/-- Python `s.lower()` (ASCII): lowercase every character. -/
def strLower (s : String) : String := String.mk (s.data.map Char.toLower)

/-- Python `s.strip()`: drop whitespace from both ends. -/
def strTrim (s : String) : String :=
  String.mk (((s.data.dropWhile Char.isWhitespace).reverse.dropWhile Char.isWhitespace).reverse)

/-- Helper for `splitWs`: accumulates the current word (reversed). -/
def splitWsAux : List Char → List Char → List String
  | [], cur => if cur.isEmpty then [] else [String.mk cur.reverse]
  | c :: rest, cur =>
      if c.isWhitespace then
        if cur.isEmpty then splitWsAux rest []
        else String.mk cur.reverse :: splitWsAux rest []
      else splitWsAux rest (c :: cur)

/-- Python `s.split()`: split on runs of whitespace, no empty words. -/
def splitWs (s : String) : List String := splitWsAux s.data []

/-- Value of a nonempty all-digit character list, if it is one.
Models the digit-string part of Python `int(str)`. -/
def parseDigits (cs : List Char) : Option Nat :=
  if cs.isEmpty then none
  else if cs.all Char.isDigit then
    some (cs.foldl (fun acc c => acc * 10 + (c.toNat - 48)) 0)
  else none

/-- Python `int(str)`: optional surrounding whitespace, optional sign, then
decimal digits.  (Python additionally accepts single underscores between
digits; tokens in this system never contain them, so that is not modelled.) -/
def parsePyInt (s : String) : Option Int :=
  match (strTrim s).data with
  | '-' :: rest => (parseDigits rest).map (fun n => -(n : Int))
  | '+' :: rest => (parseDigits rest).map (fun n => (n : Int))
  | rest => (parseDigits rest).map (fun n => (n : Int))

/-! ## Data model (products.json / orders.json records) -/

/-- A catalog product record (products.json entry). -/
structure Product where
  id : String
  title : String
  price : Int
  tags : List String
  sizes : List String
  color : String
deriving DecidableEq, Repr

/-- An order line item: the code reads `item["id"]` and `item["size"]`. -/
structure Item where
  id : String
  size : String
deriving DecidableEq, Repr

/-- An order record (orders.json entry).  `created_at` is the parsed
ISO-8601 creation time, as Unix-epoch seconds. -/
structure Order where
  order_id : String
  email : String
  created_at : Int
  items : List Item
deriving DecidableEq, Repr

/-! ## tools.py -/

/-- Does the product match the (already lowercased) query, i.e. is the query
a substring of the lowercased title or of any lowercased tag?
(From `product_search`, lines 51-52 of tools.py.) -/
def queryMatch (qLower : String) (p : Product) : Bool :=
  strContains (strLower p.title) qLower || p.tags.any (fun t => strContains (strLower t) qLower)

/-- The first filtering pass of `product_search`: drop products with
`price > price_max`, keep those matching the query as a case-insensitive
substring of title or any tag. -/
def priceQueryFilter (query : String) (price_max : Int) (products : List Product) :
    List Product :=
  products.filter (fun p => if p.price > price_max then false else queryMatch (strLower query) p)

/-- The optional second filtering pass of `product_search`: keep products
having at least one tag case-insensitively equal (list membership, not
substring) to one of the supplied tags. -/
def tagFilter (ts : List String) (results : List Product) : List Product :=
  results.filter (fun p => ts.any (fun tag => (p.tags.map strLower).contains (strLower tag)))

/-- `product_search(query, price_max, tags)` from tools.py, with the catalog
injected.  Price filter is strict exclusion of `price > price_max`; query
matches as a case-insensitive substring of title or any tag; a non-empty
supplied tag list further requires some product tag to be case-insensitively
equal to some supplied tag; the result is truncated to the first 2 matches
in catalog order. -/
def product_search (products : List Product) (query : String) (price_max : Int)
    (tags : Option (List String)) : List Product :=
  let results := priceQueryFilter query price_max products
  let results := match tags with
    | some ts =>
        -- Python `if tags:` — skipped when tags is None *or* the empty list
        if ts.isEmpty then results else tagFilter ts results
    | none => results
  results.take 2

/-- A size recommendation (`size_recommender` return dict). -/
structure SizeRec where
  recommended_size : String
  rationale : String
deriving DecidableEq, Repr

/-- `size_recommender` from tools.py.  The caller passes
`{"preference": ...}`; we take the preference string directly. -/
def size_recommender (preference : String) : SizeRec :=
  let p := strLower preference
  if strContains p "between m/l" || strContains p "m/l" then
    { recommended_size := "M"
      rationale := "Based on your preference between M/L, I recommend size M for a more fitted look. You can always size up to L if you prefer a looser fit." }
  else if strContains p "loose" || strContains p "comfortable" then
    { recommended_size := "L"
      rationale := "Recommended size L for a comfortable, loose fit." }
  else if strContains p "fitted" || strContains p "tight" then
    { recommended_size := "M"
      rationale := "Recommended size M for a fitted look." }
  else
    { recommended_size := "M"
      rationale := "Size M recommended as a versatile middle option that works for most body types." }

/-- A shipping estimate (`eta` return dict). -/
structure EtaInfo where
  eta_days : String
  zip : String
  region : String
  shipping_note : String
deriving DecidableEq, Repr

/-- `eta` from tools.py: zip-code-prefix classification, first match wins. -/
def eta (zip_code : String) : EtaInfo :=
  let pick : String × String :=
    if startsAny zip_code ["560", "600", "400"] then ("2-3", "metro")
    else if startsAny zip_code ["1", "2", "3"] then ("2-4", "east")
    else if startsAny zip_code ["9", "8"] then ("3-5", "west")
    else ("3-5", "standard")
  { eta_days := pick.1
    zip := zip_code
    region := pick.2
    shipping_note := "Standard shipping to " ++ zip_code ++ ": " ++ pick.1 ++ " business days" }

/-- `order_lookup` from tools.py, with the order list injected: first order
whose id matches exactly and whose email matches case-insensitively. -/
def order_lookup (orders : List Order) (order_id email : String) : Option Order :=
  match orders with
  | [] => none
  | o :: rest =>
      if o.order_id == order_id && strLower o.email == strLower email then some o
      else order_lookup rest order_id email

/-- The order-finding loop at the start of `order_cancel` (id match only). -/
def find_order (orders : List Order) (order_id : String) : Option Order :=
  match orders with
  | [] => none
  | o :: rest => if o.order_id == order_id then some o else find_order rest order_id

/-- Python `f"{x:.1f}"` applied to the elapsed-minutes value: round to one
decimal place and print with exactly one digit after the point.  (CPython
formats the nearest binary double; at exact decimal ties the two can differ
in the last digit — no claim depends on a tie — and CPython prints a signed
zero for small negatives, which likewise never arises in any claim.) -/
def fmt1 (q : ℚ) : String :=
  let t : Int := round (10 * q)
  let sign := if t < 0 then "-" else ""
  let a := t.natAbs
  sign ++ toString (a / 10) ++ "." ++ toString (a % 10)

/-- The `policy_decision` sub-dict of an `order_cancel` result. -/
structure CancelPolicy where
  cancel_allowed : Bool
  reason : String
deriving DecidableEq, Repr

/-- The full `order_cancel` return dict.  `refund_info` / `alternatives`
are `Option`s because Python includes those keys only on some branches. -/
structure CancelResult where
  success : Bool
  reason : String
  policy_decision : CancelPolicy
  refund_info : Option String
  alternatives : Option (List String)
deriving DecidableEq, Repr

/-- Elapsed minutes between two epoch-second timestamps, as an exact
rational: `(current - created) / 60`.  Models
`(current_time - created_at).total_seconds() / 60`. -/
def minutesElapsed (created current : Int) : ℚ := ((current - created : Int) : ℚ) / 60

/-- `order_cancel(order_id, current_timestamp)` from tools.py, with the
order list injected.  `current_timestamp = none` models the Python default
`None`, in which case the real clock `realNow` is used. -/
def order_cancel (orders : List Order) (order_id : String)
    (current_timestamp : Option Int) (realNow : Int) : CancelResult :=
  match find_order orders order_id with
  | none =>
      { success := false
        reason := "Order not found"
        policy_decision := { cancel_allowed := false, reason := "Order not found" }
        refund_info := none
        alternatives := none }
  | some o =>
      let current := current_timestamp.getD realNow
      let m := minutesElapsed o.created_at current
      if m ≤ 60 then
        { success := true
          reason := "Order cancelled successfully. Cancelled within " ++ fmt1 m ++ " minutes of creation."
          policy_decision :=
            { cancel_allowed := true
              reason := "Within 60-minute window (" ++ fmt1 m ++ " minutes elapsed)" }
          refund_info := some "Full refund will be processed within 3-5 business days."
          alternatives := none }
      else
        { success := false
          reason := "Cancellation not allowed. Order was placed " ++ fmt1 m ++ " minutes ago, which exceeds our 60-minute cancellation window."
          policy_decision :=
            { cancel_allowed := false
              reason := "Exceeds 60-minute limit (" ++ fmt1 m ++ " minutes elapsed)" }
          refund_info := none
          alternatives := some
            ["Edit your shipping address if the order hasn\x27t shipped yet",
             "Convert to store credit for future purchases",
             "Contact customer support for special assistance"] }

/-! ## Parameter extraction (the regex searches in graph.py)

`re.search` scans start positions left to right and returns the leftmost
match; the extractors below implement the three concrete patterns used by
`tool_selector_node` with exactly those semantics (including greedy
repetition with backtracking and `\b` word boundaries). -/

/-- Python regex word character (`\w`), ASCII range. -/
def isWordChar (c : Char) : Bool := c.isAlpha || c.isDigit || c == '_'

/-- Is there a `\b` word boundary between two adjacent positions?  `none`
stands for the start/end of the string (treated as a non-word side). -/
def isBoundary (a b : Option Char) : Bool :=
  (match a with | none => false | some c => isWordChar c)
    != (match b with | none => false | some c => isWordChar c)

/-- Split off the maximal run of characters satisfying `p`. -/
def takeRun (p : Char → Bool) : List Char → List Char × List Char
  | [] => ([], [])
  | c :: rest =>
      if p c then
        let (r, rs) := takeRun p rest
        (c :: r, rs)
      else ([], c :: rest)

/-- Attempt to match `\b[A-Z]\d+\b` at this exact start position (`prev` is
the character before it, if any).  Greedy `\d+` takes the maximal digit run;
shorter runs can never satisfy the trailing `\b` (the next character would
be a digit), so no backtracking is needed. -/
def orderIdTryAt (prev : Option Char) (s : List Char) : Option String :=
  match s with
  | [] => none
  | c :: rest =>
      if c.isUpper && isBoundary prev (some c) then
        match rest with
        | d :: _ =>
            if d.isDigit then
              let (run, after) := takeRun Char.isDigit rest
              if isBoundary (run.getLast?) (after.head?) then some (String.mk (c :: run))
              else none
            else none
        | [] => none
      else none

/-- Scan for the leftmost match of `\b[A-Z]\d+\b`
(`re.search(r'\b[A-Z]\d+\b', user_input)` in `tool_selector_node`). -/
def orderIdAux : Option Char → List Char → Option String
  | _, [] => none
  | prev, c :: rest =>
      match orderIdTryAt prev (c :: rest) with
      | some r => some r
      | none => orderIdAux (some c) rest

/-- The order-id token extracted from the raw user text, if any. -/
def extractOrderId (s : String) : Option String := orderIdAux none s.data

/-- Attempt to match `\b\d{5,6}\b` at this exact start position.  Greedy
`{5,6}` takes 6 digits when available, backtracking to 5 for the trailing
`\b`; a maximal digit run of length 7 or more can satisfy neither. -/
def zipTryAt (prev : Option Char) (s : List Char) : Option String :=
  match s with
  | [] => none
  | c :: _ =>
      if c.isDigit && isBoundary prev (some c) then
        let (run, after) := takeRun Char.isDigit s
        if run.length == 6 && isBoundary (run.getLast?) (after.head?) then
          some (String.mk run)
        else if run.length == 5 && isBoundary (run.getLast?) (after.head?) then
          some (String.mk run)
        else none
      else none

/-- Scan for the leftmost match of `\b\d{5,6}\b`
(`re.search(r'\b\d{5,6}\b', user_input)` in `tool_selector_node`). -/
def zipAux : Option Char → List Char → Option String
  | _, [] => none
  | prev, c :: rest =>
      match zipTryAt prev (c :: rest) with
      | some r => some r
      | none => zipAux (some c) rest

/-- The postal-code token extracted from the raw user text, if any. -/
def extractZip (s : String) : Option String := zipAux none s.data

/-- Character class `[A-Za-z0-9._%+-]` (email local part). -/
def isLocalChar (c : Char) : Bool :=
  c.isAlpha || c.isDigit || c == '.' || c == '_' || c == '%' || c == '+' || c == '-'

/-- Character class `[A-Za-z0-9.-]` (email domain part). -/
def isDomainChar (c : Char) : Bool := c.isAlpha || c.isDigit || c == '.' || c == '-'

/-- Character class `[A-Z|a-z]{2,}` — note the literal `|` inside the class,
exactly as written in the source pattern. -/
def isTldChar (c : Char) : Bool := c.isAlpha || c == '|'

/-- For the final `[A-Z|a-z]{2,}\b`: given the maximal class run and the
characters after it, the largest j at least 2 such that taking j run
characters leaves a word boundary; `none` if no such j. -/
def tldBacktrack (run after : List Char) : Option Nat :=
  let n := run.length
  (((List.range (n + 1)).filter (fun j => 2 ≤ j)).reverse).find? (fun j =>
    isBoundary (run.get? (j - 1)) (if j < n then run.get? j else after.head?))

/-- Attempt to match the email pattern
`\b[A-Za-z0-9._%+-]+@[A-Za-z0-9.-]+\.[A-Z|a-z]{2,}\b` at this exact start
position.  The local `+` needs no backtracking (`@` is not in its class);
the domain `+` backtracks over the positions of `.` inside its maximal run
(greedy: rightmost viable `.` first); the final `{2,}` backtracks for `\b`. -/
def emailTryAt (prev : Option Char) (s : List Char) : Option String :=
  match s with
  | [] => none
  | c :: _ =>
      if isLocalChar c && isBoundary prev (some c) then
        let (lrun, rest1) := takeRun isLocalChar s
        match rest1 with
        | '@' :: rest2 =>
            let (drun, rest3) := takeRun isDomainChar rest2
            ((((List.range drun.length).filter (fun k => 1 ≤ k)).reverse).findSome?
              (fun k =>
                if drun.get? k == some '.' then
                  let (trun, tafter) := takeRun isTldChar (drun.drop (k + 1) ++ rest3)
                  match tldBacktrack trun tafter with
                  | some j =>
                      some (String.mk (lrun ++ '@' :: (drun.take k ++ '.' :: trun.take j)))
                  | none => none
                else none))
        | _ => none
      else none

/-- Scan for the leftmost match of the email pattern
(`re.search(r'\b[A-Za-z0-9._%+-]+@[A-Za-z0-9.-]+\.[A-Z|a-z]{2,}\b', ...)`). -/
def emailAux : Option Char → List Char → Option String
  | _, [] => none
  | prev, c :: rest =>
      match emailTryAt prev (c :: rest) with
      | some r => some r
      | none => emailAux (some c) rest

/-- The email-shaped token extracted from the raw user text, if any. -/
def extractEmail (s : String) : Option String := emailAux none s.data

/-! ## graph.py: agent state -/

/-- One entry of the heterogeneous `tool_results` dict: the value stored
under each tool's name. -/
inductive ToolResult where
  | products (ps : List Product)
  | sizeRec (r : SizeRec)
  | etaInfo (e : EtaInfo)
  | orderRes (o : Option Order)
  | cancelRes (r : CancelResult)
deriving DecidableEq, Repr

/-- An entry of the `evidence` list: a product summary or an order summary,
with exactly the fields the dispatcher copies. -/
inductive Evidence where
  | product (product_id title : String) (price : Int) (sizes : List String) (color : String)
  | order (order_id email : String) (created_at : Int) (items : List Item)
deriving DecidableEq, Repr

/-- The discount-guardrail refusal object built by `policy_guard_node`. -/
structure Refusal where
  refuse : Bool
  reason : String
  alternatives : List String
deriving DecidableEq, Repr

/-- The possible shapes of `state["policy_decision"]` when present: the
cancellation engine's decision dict, the discount refusal dict, or the
`{"error": ...}` dict of the degraded error trace. -/
inductive PolicyVal where
  | cancel (p : CancelPolicy)
  | refusal (r : Refusal)
  | errObj (msg : String)
deriving DecidableEq, Repr

/-- The `json_trace` dict built by `responder_node` (field names are part
of the contract). -/
structure Trace where
  intent : String
  tools_called : List String
  evidence : List Evidence
  policy_decision : Option PolicyVal
  final_message : String
deriving DecidableEq, Repr

/-- The initial `"json_trace": {}` placeholder of `process_message`'s
initial state (always overwritten by `responder_node`). -/
def emptyTrace : Trace :=
  { intent := "", tools_called := [], evidence := [], policy_decision := none
    final_message := "" }

/-- The `AgentState` TypedDict threaded through the graph nodes. -/
structure AgentState where
  user_input : String
  intent : String
  tools_called : List String
  tool_results : List (String × ToolResult)
  evidence : List Evidence
  policy_decision : Option PolicyVal
  final_message : String
  json_trace : Trace
deriving DecidableEq, Repr

/-- Dict lookup in `tool_results` (each key is assigned at most once per
request, so first-match association lookup is dict lookup). -/
def lookupTR (name : String) : List (String × ToolResult) → Option ToolResult
  | [] => none
  | (k, v) :: rest => if k == name then some v else lookupTR name rest

/-- The injected outcomes of `load_products()` and `load_orders()` for one
request: `.ok` is a successful snapshot load of the JSON file, `.error`
the I/O or decode exception it would raise. -/
structure Loaders where
  products : Except String (List Product)
  orders : Except String (List Order)

/-- `product_search` as called in the pipeline: `load_products()` may fail,
and its failure propagates out of the tool itself. -/
def product_searchE (l : Loaders) (query : String) (price_max : Int)
    (tags : Option (List String)) : Except String (List Product) := do
  let ps ← l.products
  pure (product_search ps query price_max tags)

/-- `order_lookup` as called in the pipeline (fallible load). -/
def order_lookupE (l : Loaders) (order_id email : String) : Except String (Option Order) := do
  let os ← l.orders
  pure (order_lookup os order_id email)

/-- `order_cancel` as called in the pipeline (fallible load). -/
def order_cancelE (l : Loaders) (order_id : String) (current_timestamp : Option Int)
    (realNow : Int) : Except String CancelResult := do
  let os ← l.orders
  pure (order_cancel os order_id current_timestamp realNow)

/-! ## graph.py: tool_selector_node -/

/-- The price-extraction loop of `tool_selector_node`: scan the lowercased
words; after "under"/"below"/"max", try to parse the next word (with `$`
and `,` removed) as an integer; first success wins, parse failures continue
the scan; default 1000. -/
def extract_price : List String → Int
  | w :: next :: rest =>
      if w == "under" || w == "below" || w == "max" then
        match parsePyInt (String.mk (next.data.filter (fun c => c != '$' && c != ','))) with
        | some v => v
        | none => extract_price (next :: rest)
      else extract_price (next :: rest)
  | _ => 1000

/-- The coarse query built from literal keyword presence in the lowercased
text, defaulting to "dress". -/
def build_query (lowered : String) : String :=
  let query_terms :=
    (if strContains lowered "wedding" then ["wedding"] else [])
      ++ (if strContains lowered "midi" then ["midi"] else [])
      ++ (if strContains lowered "party" then ["party"] else [])
  if query_terms.isEmpty then "dress" else String.intercalate " " query_terms

/-- The fixed evaluation timestamp `"2025-09-07T12:30:00Z"` hardcoded in
`tool_selector_node` ("Use mock timestamp for testing consistency"), as
Unix-epoch seconds. -/
def mockTimestamp : Int := 1757248200

/-- The product evidence entry appended for each found product. -/
def productEvidence (p : Product) : Evidence :=
  .product p.id p.title p.price p.sizes p.color

/-- The order evidence entry appended for a found order. -/
def orderEvidence (o : Order) : Evidence :=
  .order o.order_id o.email o.created_at o.items

/-- The accumulated locals of one `tool_selector_node` run:
(tools_called, tool_results, evidence). -/
def ToolAcc := List String × List (String × ToolResult) × List Evidence

/-- The `product_assist` branch of `tool_selector_node`: price extraction,
product search (whose load failure the surrounding `try` swallows,
recording nothing), conditional size recommendation, conditional ETA.
`lowered` is the lowercased user text, `rawInput` the raw text (the zip
regex runs on the raw text). -/
def product_assist_tools (l : Loaders) (lowered rawInput : String) : ToolAcc :=
  let price_max := extract_price (splitWs lowered)
  let query := build_query lowered
  let (tc1, tr1, ev1) :=
    match product_searchE l query price_max none with
    | .ok ps => (["product_search"], [("product_search", ToolResult.products ps)],
                 ps.map productEvidence)
    | .error _ => ([], [], [])
  let (tc2, tr2) :=
    if strContains lowered "size" || strContains lowered "m/l" || strContains lowered "between" then
      (["size_recommender"], [("size_recommender", ToolResult.sizeRec (size_recommender lowered))])
    else ([], [])
  let (tc3, tr3) :=
    match extractZip rawInput with
    | some z => (["eta"], [("eta", ToolResult.etaInfo (eta z))])
    | none => ([], [])
  (tc1 ++ tc2 ++ tc3, tr1 ++ tr2 ++ tr3, ev1)

/-- The `order_help` branch of `tool_selector_node`: token extraction, then
lookup and conditional cancellation.  The outer `try` swallows a lookup
failure (recording nothing); the inner `try` swallows a cancel failure
(leaving only the lookup recorded). -/
def order_help_tools (l : Loaders) (realNow : Int) (lowered rawInput : String) : ToolAcc :=
  match extractOrderId rawInput, extractEmail rawInput with
  | some oid, some em =>
      (match order_lookupE l oid em with
       | .error _ => ([], [], [])
       | .ok ord =>
           match ord with
           | some o =>
               if strContains lowered "cancel" then
                 match order_cancelE l oid (some mockTimestamp) realNow with
                 | .ok cr =>
                     (["order_lookup", "order_cancel"],
                      [("order_lookup", ToolResult.orderRes (some o)),
                       ("order_cancel", ToolResult.cancelRes cr)],
                      [orderEvidence o])
                 | .error _ =>
                     (["order_lookup"], [("order_lookup", ToolResult.orderRes (some o))],
                      [orderEvidence o])
               else
                 (["order_lookup"], [("order_lookup", ToolResult.orderRes (some o))],
                  [orderEvidence o])
           | none =>
               (["order_lookup"], [("order_lookup", ToolResult.orderRes none)], []))
  | _, _ => ([], [], [])

/-- `tool_selector_node` from graph.py.  `realNow` is the real clock, only
ever reachable through `order_cancel`'s default-timestamp branch.  Each
Python `try`/`except`-and-print block becomes a `match` on the fallible
call whose `.error` case records nothing. -/
def tool_selector_node (l : Loaders) (realNow : Int) (st : AgentState) : AgentState :=
  let lowered := strLower st.user_input
  let acc : ToolAcc :=
    if st.intent == "product_assist" then
      product_assist_tools l lowered st.user_input
    else if st.intent == "order_help" then
      order_help_tools l realNow lowered st.user_input
    else ([], [], [])
  { st with tools_called := acc.1, tool_results := acc.2.1, evidence := acc.2.2 }

/-! ## graph.py: policy_guard_node -/

/-- The `policy_decision` field of a stored cancel result
(`cancel_result.get("policy_decision", {})`; the default branch is
unreachable because the "order_cancel" key only ever holds a cancel
result). -/
def cancelPolicyOf : ToolResult → CancelPolicy
  | .cancelRes cr => cr.policy_decision
  | _ => { cancel_allowed := false, reason := "" }

/-- The fixed refusal object of the discount-code guardrail. -/
def discountRefusal : Refusal :=
  { refuse := true
    reason := "Non-existent discount code requested"
    alternatives :=
      ["Sign up for our newsletter to get future discount codes",
       "Check our current promotions page",
       "First-time customers get 10% off their first order"] }

/-- `policy_guard_node` from graph.py: surface the cancellation decision if
`order_cancel` ran; otherwise refuse if the text contains both "discount"
and "code" (case-insensitive); otherwise no decision. -/
def policy_guard_node (st : AgentState) : AgentState :=
  let pd : Option PolicyVal :=
    match lookupTR "order_cancel" st.tool_results with
    | some tr => some (.cancel (cancelPolicyOf tr))
    | none =>
        if strContains (strLower st.user_input) "discount"
            && strContains (strLower st.user_input) "code" then
          some (.refusal discountRefusal)
        else none
  { st with policy_decision := pd }

/-! ## graph.py: responder_node and response generation -/

/-- Full month name (strftime `%B`). -/
def monthName : Nat → String
  | 1 => "January"
  | 2 => "February"
  | 3 => "March"
  | 4 => "April"
  | 5 => "May"
  | 6 => "June"
  | 7 => "July"
  | 8 => "August"
  | 9 => "September"
  | 10 => "October"
  | 11 => "November"
  | 12 => "December"
  | _ => ""

/-- Two-digit zero padding (strftime zero-padded fields). -/
def pad2 (n : Nat) : String := if n < 10 then "0" ++ toString n else toString n

/-- Days-since-epoch to civil (year, month, day), proleptic Gregorian
(standard era-based algorithm, as used by Python's datetime). -/
def civilFromDays (z0 : Int) : Int × Nat × Nat :=
  let z := z0 + 719468
  let era := z.fdiv 146097
  let doe := (z - era * 146097).toNat
  let yoe := (doe - doe / 1460 + doe / 36524 - doe / 146096) / 365
  let doy := doe - (365 * yoe + yoe / 4 - yoe / 100)
  let mp := (5 * doy + 2) / 153
  let d := doy - (153 * mp + 2) / 5 + 1
  let m := if mp < 10 then mp + 3 else mp - 9
  ((yoe : Int) + era * 400 + (if m ≤ 2 then 1 else 0), m, d)

/-- `format_order_date` from graph.py: parsed timestamp rendered as
`strftime("%B %d at %I:%M %p")`.  (The Python `except` fallback returns the
raw string when ISO parsing fails; parse failure is not representable once
a timestamp has been abstracted to epoch seconds.) -/
def format_order_date (t : Int) : String :=
  let days := t.fdiv 86400
  let secs := (t - days * 86400).toNat
  let c := civilFromDays days
  let hh := secs / 3600
  let mm := (secs % 3600) / 60
  let hour12 := if hh % 12 == 0 then 12 else hh % 12
  let ampm := if hh < 12 then "AM" else "PM"
  monthName c.2.1 ++ " " ++ pad2 c.2.2 ++ " at " ++ pad2 hour12 ++ ":" ++ pad2 mm ++ " " ++ ampm

/-- The product list stored under "product_search" (that key only ever
holds a product list; other variants are unreachable). -/
def productsOf : ToolResult → List Product
  | .products ps => ps
  | _ => []

/-- The size recommendation stored under "size_recommender". -/
def sizeRecOf : ToolResult → SizeRec
  | .sizeRec r => r
  | _ => { recommended_size := "", rationale := "" }

/-- The shipping estimate stored under "eta". -/
def etaInfoOf : ToolResult → EtaInfo
  | .etaInfo e => e
  | _ => { eta_days := "", zip := "", region := "", shipping_note := "" }

/-- The order stored under "order_lookup". -/
def orderResOf : ToolResult → Option Order
  | .orderRes o => o
  | _ => none

/-- The cancel result stored under "order_cancel". -/
def cancelResOf : ToolResult → CancelResult
  | .cancelRes r => r
  | _ => { success := false, reason := "", policy_decision := { cancel_allowed := false, reason := "" }
           refund_info := none, alternatives := none }

/-- One numbered product line of the product response. -/
def product_line (i : Nat) (p : Product) : String :=
  toString i ++ ". **" ++ p.title ++ "** ($" ++ toString p.price ++ ", " ++ p.color
    ++ ") - Available in " ++ String.intercalate ", " p.sizes

/-- `generate_product_response` from graph.py. -/
def generate_product_response (trs : List (String × ToolResult)) : String :=
  let parts1 :=
    match lookupTR "product_search" trs with
    | some tr =>
        let ps := productsOf tr
        if ps.isEmpty then
          ["I don\x27t see any products matching those criteria in our current collection."]
        else
          ("I found " ++ toString ps.length ++ " great option"
              ++ (if ps.length > 1 then "s" else "") ++ " for you:\n")
            :: ps.enum.map (fun ip => product_line (ip.1 + 1) ip.2)
    | none => []
  let parts2 :=
    match lookupTR "size_recommender" trs with
    | some tr =>
        let sr := sizeRecOf tr
        ["\n**Size recommendation:** " ++ sr.recommended_size ++ " - " ++ sr.rationale]
    | none => []
  let parts3 :=
    match lookupTR "eta" trs with
    | some tr =>
        let e := etaInfoOf tr
        ["\n**Shipping to " ++ e.zip ++ ":** " ++ e.eta_days ++ " business days"]
    | none => []
  String.intercalate "\n"
    (parts1 ++ parts2 ++ parts3 ++ ["\nWould you like more details about any of these options?"])

/-- One itemized order line: the catalog (re-loaded per item) is searched
for the item's product id, with a generic fallback line for unknown ids.
Loading may fail, and that failure propagates to `responder_node`'s catch. -/
def item_lineE (l : Loaders) (it : Item) : Except String String := do
  let ps ← l.products
  match ps.find? (fun p => p.id == it.id) with
  | some p => pure ("- " ++ p.title ++ " (Size " ++ it.size ++ ")")
  | none => pure ("- Product " ++ it.id ++ " (Size " ++ it.size ++ ")")

/-- The fixed "couldn't find that order" message. -/
def orderNotFoundMsg : String :=
  "I couldn\x27t find an order with that ID and email combination. Please double-check the order number and email address."

/-- `generate_order_response` from graph.py. -/
def generate_order_responseE (l : Loaders) (trs : List (String × ToolResult)) :
    Except String String :=
  match lookupTR "order_lookup" trs with
  | none => .ok orderNotFoundMsg
  | some tr =>
      match orderResOf tr with
      | none => .ok orderNotFoundMsg
      | some o => do
          let lines ← o.items.mapM (item_lineE l)
          let itemsText := String.intercalate "\n" lines
          match lookupTR "order_cancel" trs with
          | some ctr =>
              let cr := cancelResOf ctr
              if cr.success then
                pure ("✅ **Order " ++ o.order_id ++ " has been successfully cancelled.**\n\nOrder details:\n"
                  ++ itemsText ++ "\n- Placed: " ++ format_order_date o.created_at
                  ++ "\n- Cancelled within our 60-minute window\n\n**Refund:** "
                  ++ cr.refund_info.getD "Full refund will be processed within 3-5 business days to your original payment method."
                  ++ "\n\nIs there anything else I can help you with?")
              else
                pure ("❌ **Unable to cancel order " ++ o.order_id ++ "**\n\n" ++ cr.reason
                  ++ "\n\n**Alternative options:**\n"
                  ++ String.intercalate "\n" ((cr.alternatives.getD []).map (fun a => "• **" ++ a ++ "**"))
                  ++ "\n\nWhich option would work best for you?")
          | none =>
              pure ("📋 **Order " ++ o.order_id ++ " Details:**\n\n" ++ itemsText
                ++ "\n- Placed: " ++ format_order_date o.created_at
                ++ "\n- Email: " ++ o.email
                ++ "\n\nHow can I help you with this order?")

/-- The fixed capability-summary message of `generate_other_response`. -/
def capabilityMsg : String :=
  "I\x27m here to help you find products and manage your orders. I can:\n\n• **Find products** - Search by style, price, size, or occasion\n• **Size guidance** - Help you choose between M and L\n• **Shipping info** - Provide delivery estimates\n• **Order help** - Look up orders and handle cancellations (within 60 minutes)\n\nWhat would you like help with?"

/-- `generate_other_response` from graph.py: a refusal decision with a
truthy `refuse` field plus "discount" in the text renders the refusal;
anything else falls through to the capability summary. -/
def generate_other_response (user_input : String) (pd : Option PolicyVal) : String :=
  let refuseSet :=
    match pd with
    | some (.refusal r) => r.refuse
    | _ => false
  if refuseSet && strContains (strLower user_input) "discount" then
    let alts := match pd with | some (.refusal r) => r.alternatives | _ => []
    "I don\x27t have access to create custom discount codes, but here are some ways you can save:\n\n"
      ++ String.intercalate "\n" (alts.map (fun a => "• " ++ a))
      ++ "\n\nIs there anything else I can help you find today?"
  else capabilityMsg

/-- `generate_customer_response` from graph.py: branch on intent.  Only the
order branch can fail (it re-loads the catalog). -/
def generate_customer_responseE (l : Loaders) (st : AgentState) : Except String String :=
  if st.intent == "product_assist" then .ok (generate_product_response st.tool_results)
  else if st.intent == "order_help" then generate_order_responseE l st.tool_results
  else if st.intent == "other" then .ok (generate_other_response st.user_input st.policy_decision)
  else .ok "I\x27m not sure how to help with that. Could you please rephrase your request?"

/-- The apology used inside `responder_node`'s catch. -/
def responderApology : String :=
  "I apologize, but I\x27m having trouble processing your request right now. Please try again or contact customer support."

/-- `responder_node` from graph.py: build the trace, then fill in the
generated message, falling back to an apology if generation raised. -/
def responder_node (l : Loaders) (st : AgentState) : AgentState :=
  let t0 : Trace :=
    { intent := st.intent, tools_called := st.tools_called, evidence := st.evidence
      policy_decision := st.policy_decision, final_message := "" }
  match generate_customer_responseE l st with
  | .ok m => { st with final_message := m, json_trace := { t0 with final_message := m } }
  | .error _ =>
      { st with final_message := responderApology
                json_trace := { t0 with final_message := responderApology } }

/-! ## graph.py: router_node and the request entry point -/

/-- The deterministic keyword fallback of `router_node`. -/
def keyword_fallback (text : String) : String :=
  let lo := strLower text
  if ["cancel", "order", "refund", "return"].any (fun w => strContains lo w) then "order_help"
  else if ["dress", "product", "size", "wedding", "find", "recommend"].any
      (fun w => strContains lo w) then "product_assist"
  else "other"

/-- `router_node` from graph.py.  The classifier collaborator's outcome is
injected: `.ok raw` is the LLM's reply text, `.error` a raised exception
(caught, defaulting the intent to "other"). -/
def router_node (classify : Except String String) (st : AgentState) : AgentState :=
  let intent :=
    match classify with
    | .ok raw =>
        let i := strTrim (strLower raw)
        if i == "product_assist" || i == "order_help" || i == "other" then i
        else keyword_fallback st.user_input
    | .error _ => "other"
  { st with intent := intent }

/-- The initial state built by `process_message`. -/
def initial_state (user_input : String) : AgentState :=
  { user_input := user_input, intent := "", tools_called := [], tool_results := []
    evidence := [], policy_decision := none, final_message := "", json_trace := emptyTrace }

/-- `self.graph.invoke(initial_state)`: the compiled linear workflow
router → tool_selector → policy_guard → responder (from
`create_agent_graph`). -/
def run_graph (classify : Except String String) (l : Loaders) (realNow : Int)
    (text : String) : AgentState :=
  responder_node l (policy_guard_node (tool_selector_node l realNow
    (router_node classify (initial_state text))))

/-- The `{json_trace, final_message}` dict returned by `process_message`. -/
structure ProcessResult where
  json_trace : Trace
  final_message : String
deriving DecidableEq, Repr

/-- The fixed apology of `process_message`'s degraded error response. -/
def processApology : String :=
  "I\x27m having trouble processing your request right now. Please try again or contact customer support."

/-- The degraded error trace built in `process_message`'s catch. -/
def errorTrace (e : String) : Trace :=
  { intent := "error", tools_called := [], evidence := [], policy_decision := some (.errObj e)
    final_message := processApology }

/-- `EcommerceAgent.process_message` from graph.py.  `crash` injects a
runtime exception raised during `self.graph.invoke` (`some e` models a
raised exception with message `e`; the embedded nodes themselves are total,
so in-node failures are already handled before this point, exactly as in
the source). -/
def process_message (classify : Except String String) (l : Loaders) (realNow : Int)
    (crash : Option String) (text : String) : ProcessResult :=
  match crash with
  | some e => { json_trace := errorTrace e, final_message := processApology }
  | none =>
      let s := run_graph classify l realNow text
      { json_trace := s.json_trace, final_message := s.final_message }

/-! ## Helper lemmas -/

/-- Membership in a `product_search` result implies membership in the first
(price + query) filtering pass. -/
theorem mem_priceQueryFilter_of_mem_product_search
    {products : List Product} {query : String} {price_max : Int}
    {tags : Option (List String)} {p : Product}
    (h : p ∈ product_search products query price_max tags) :
    p ∈ priceQueryFilter query price_max products := by
  unfold product_search at h
  rcases tags with _ | ts
  · exact List.take_subset 2 _ h
  · by_cases hts : ts.isEmpty
    · simp only [hts, if_true] at h
      exact List.take_subset 2 _ h
    · simp only [hts, if_false] at h
      have h2 := List.take_subset 2 _ h
      exact List.mem_of_mem_filter h2

/-- What the first filtering pass guarantees about its members. -/
theorem of_mem_priceQueryFilter {products : List Product} {query : String}
    {price_max : Int} {p : Product} (h : p ∈ priceQueryFilter query price_max products) :
    p ∈ products ∧ p.price ≤ price_max ∧ queryMatch (strLower query) p = true := by
  have ⟨hmem, hpred⟩ := List.mem_filter.mp h
  refine ⟨hmem, ?_, ?_⟩
  · by_cases hp : p.price > price_max
    · simp [hp] at hpred
    · exact le_of_not_lt hp
  · by_cases hp : p.price > price_max
    · simp [hp] at hpred
    · simpa [hp] using hpred

/-! ## Sample data for witnesses -/

/-- A small concrete catalog used by witnesses. -/
def sampleProducts : List Product :=
  [{ id := "P1", title := "Wedding Guest Midi Dress", price := 119
     tags := ["wedding", "midi"], sizes := ["M", "L"], color := "ivory" },
   { id := "P2", title := "Party Gown", price := 250
     tags := ["party"], sizes := ["M"], color := "red" }]

/-- A concrete order used by witnesses (note the mixed-case stored email);
created 2100 seconds before the mock evaluation timestamp. -/
def sampleOrder : Order :=
  { order_id := "A1003", email := "Mira@Example.com"
    created_at := mockTimestamp - 2100, items := [{ id := "P1", size := "M" }] }

/-- A small concrete order list used by witnesses. -/
def sampleOrders : List Order := [sampleOrder]

/-! ## C2 -/

/-- C2: for every query string, price ceiling, and optional tag set,
`product_search` returns a list of at most 2 products, and every product in
the result has price ≤ the given ceiling. -/
theorem C2_product_search_cap_and_price (products : List Product) (query : String)
    (price_max : Int) (tags : Option (List String)) :
    (product_search products query price_max tags).length ≤ 2 ∧
    ∀ p ∈ product_search products query price_max tags, p.price ≤ price_max := by
  constructor
  · unfold product_search
    rcases tags with _ | ts
    · exact List.length_take_le 2 _
    · by_cases hts : ts.isEmpty <;> simp [hts, List.length_take_le]
  · intro p hp
    exact (of_mem_priceQueryFilter (mem_priceQueryFilter_of_mem_product_search hp)).2.1

/-- Witness for C2: evaluated at the sample catalog, the cap holds and the
first returned product respects the ceiling. -/
theorem C2_witness :
    (product_search sampleProducts "wedding" 120 none).length ≤ 2 ∧
    (Product.mk "P1" "Wedding Guest Midi Dress" 119 ["wedding", "midi"] ["M", "L"] "ivory").price ≤ 120 :=
  ⟨(C2_product_search_cap_and_price sampleProducts "wedding" 120 none).1,
   (C2_product_search_cap_and_price sampleProducts "wedding" 120 none).2 _ (by decide)⟩

/-! ## C7 -/

/-- C7: when a non-empty tag set is supplied, a product is kept only if one
of its tags is exactly equal (case-insensitively) to one of the supplied
tags — the tag filter uses equality, not substring matching — while the
query matched as a case-insensitive substring of the title or of some tag. -/
theorem C7_tag_filter_exact_equality (products : List Product) (query : String)
    (price_max : Int) (ts : List String) (p : Product) (hts : ts ≠ [])
    (hp : p ∈ product_search products query price_max (some ts)) :
    (∃ tag ∈ ts, ∃ t ∈ p.tags, strLower t = strLower tag) ∧
    (strContains (strLower p.title) (strLower query) = true ∨
      ∃ t ∈ p.tags, strContains (strLower t) (strLower query) = true) := by
  have hempty : ts.isEmpty = false := by
    cases ts with
    | nil => exact absurd rfl hts
    | cons a l => rfl
  have htagmem : p ∈ tagFilter ts (priceQueryFilter query price_max products) := by
    unfold product_search at hp
    simp only [hempty, Bool.false_eq_true, if_false] at hp
    exact List.take_subset 2 _ hp
  have ⟨hpq, hpred⟩ := List.mem_filter.mp htagmem
  constructor
  · have hany := List.any_eq_true.mp hpred
    obtain ⟨tag, htag, hcont⟩ := hany
    refine ⟨tag, htag, ?_⟩
    have hmem : strLower tag ∈ p.tags.map strLower := by
      simpa using hcont
    obtain ⟨t, htmem, hteq⟩ := List.mem_map.mp hmem
    exact ⟨t, htmem, hteq⟩
  · have hq := (of_mem_priceQueryFilter hpq).2.2
    unfold queryMatch at hq
    simp only [Bool.or_eq_true] at hq
    rcases hq with h | h
    · exact Or.inl h
    · exact Or.inr (by simpa using List.any_eq_true.mp h)

/-- Witness for C7: a product kept through the tag filter with supplied tag
"WEDDING" (case differs, exact otherwise). -/
theorem C7_witness :
    (∃ tag ∈ ["WEDDING"], ∃ t ∈ ["wedding", "midi"], strLower t = strLower tag) ∧
    (strContains (strLower "Wedding Guest Midi Dress") (strLower "wedding") = true ∨
      ∃ t ∈ ["wedding", "midi"], strContains (strLower t) (strLower "wedding") = true) :=
  C7_tag_filter_exact_equality sampleProducts "wedding" 120 ["WEDDING"]
    { id := "P1", title := "Wedding Guest Midi Dress", price := 119
      tags := ["wedding", "midi"], sizes := ["M", "L"], color := "ivory" }
    (by decide) (by decide)

/-! ## C8 -/

/-- C8: `order_lookup` returns the first order whose id matches exactly and
whose email matches case-insensitively, and returns `none` (absence, not an
error) exactly when no order satisfies both conditions. -/
theorem C8_order_lookup_first_match (orders : List Order) (oid em : String) :
    (∀ o, order_lookup orders oid em = some o →
      o.order_id = oid ∧ strLower o.email = strLower em ∧
      ∃ l1 l2, orders = l1 ++ o :: l2 ∧
        ∀ o' ∈ l1, ¬(o'.order_id = oid ∧ strLower o'.email = strLower em)) ∧
    (order_lookup orders oid em = none ↔
      ∀ o' ∈ orders, ¬(o'.order_id = oid ∧ strLower o'.email = strLower em)) := by
  induction orders with
  | nil => simp [order_lookup]
  | cons a rest ih =>
      by_cases hc : a.order_id = oid ∧ strLower a.email = strLower em
      · have heq : order_lookup (a :: rest) oid em = some a := by
          simp [order_lookup, hc.1, hc.2]
        constructor
        · intro o ho
          rw [heq] at ho
          cases ho
          exact ⟨hc.1, hc.2, [], rest, rfl, by simp⟩
        · rw [heq]
          simp only [reduceCtorEq, false_iff, not_forall]
          exact ⟨a, by simp, fun h => h hc⟩
      · have heq : order_lookup (a :: rest) oid em = order_lookup rest oid em := by
          have : (a.order_id == oid && strLower a.email == strLower em) = false := by
            rcases Decidable.not_and_iff_or_not.mp hc with h | h <;>
              simp [h]
          simp [order_lookup, this]
        constructor
        · intro o ho
          rw [heq] at ho
          obtain ⟨h1, h2, l1, l2, hsplit, hfirst⟩ := ih.1 o ho
          refine ⟨h1, h2, a :: l1, l2, by simp [hsplit], ?_⟩
          intro o' ho'
          rcases List.mem_cons.mp ho' with h | h
          · subst h; exact hc
          · exact hfirst o' h
        · rw [heq]
          constructor
          · intro hn o' ho'
            rcases List.mem_cons.mp ho' with h | h
            · subst h; exact hc
            · exact (ih.2.mp hn) o' h
          · intro hall
            exact ih.2.mpr (fun o' ho' => hall o' (List.mem_cons_of_mem a ho'))

/-- Witness for C8: the stored email "Mira@Example.com" is matched by the
query email "mira@example.com" (differing only in case), and the match is
the first order. -/
theorem C8_witness :
    (Order.mk "A1003" "Mira@Example.com" (mockTimestamp - 2100) [{ id := "P1", size := "M" }]).order_id = "A1003" ∧
    strLower "Mira@Example.com" = strLower "mira@example.com" ∧
    ∃ l1 l2, sampleOrders = l1 ++ (Order.mk "A1003" "Mira@Example.com" (mockTimestamp - 2100) [{ id := "P1", size := "M" }]) :: l2 ∧
      ∀ o' ∈ l1, ¬(o'.order_id = "A1003" ∧ strLower o'.email = strLower "mira@example.com") :=
  (C8_order_lookup_first_match sampleOrders "A1003" "mira@example.com").1 _ (by decide)

/-! ## C1 -/

/-- C1: for every order found by id and every evaluation timestamp,
`order_cancel` allows cancellation iff the elapsed minutes since
`created_at` are ≤ 60 (boundary inclusive): when allowed it returns
`success = true` with a refund string, when elapsed > 60 it returns
`success = false` with exactly 3 alternatives, and in both cases the reason
contains the elapsed minutes formatted to one decimal place. -/
theorem C1_order_cancel_window (orders : List Order) (oid : String) (t realNow : Int)
    (o : Order) (hfind : find_order orders oid = some o) :
    ((order_cancel orders oid (some t) realNow).success = true ↔
      minutesElapsed o.created_at t ≤ 60) ∧
    (minutesElapsed o.created_at t ≤ 60 →
      (order_cancel orders oid (some t) realNow).refund_info =
        some "Full refund will be processed within 3-5 business days." ∧
      ∃ pre post, (order_cancel orders oid (some t) realNow).reason =
        pre ++ fmt1 (minutesElapsed o.created_at t) ++ post) ∧
    (60 < minutesElapsed o.created_at t →
      (order_cancel orders oid (some t) realNow).success = false ∧
      (∃ alts, (order_cancel orders oid (some t) realNow).alternatives = some alts ∧
        alts.length = 3) ∧
      ∃ pre post, (order_cancel orders oid (some t) realNow).reason =
        pre ++ fmt1 (minutesElapsed o.created_at t) ++ post) := by
  by_cases hm : minutesElapsed o.created_at t ≤ 60
  · simp only [order_cancel, hfind, Option.getD_some, if_pos hm]
    refine ⟨by simp [hm], fun _ => ⟨by trivial, ?_⟩, fun hgt => absurd hm (not_le.mpr hgt)⟩
    exact ⟨"Order cancelled successfully. Cancelled within ", " minutes of creation.", rfl⟩
  · simp only [order_cancel, hfind, Option.getD_some, if_neg hm]
    refine ⟨by simp [hm], fun hle => absurd hle hm, fun _ => ⟨by trivial, ⟨_, by trivial, by trivial⟩, ?_⟩⟩
    exact ⟨"Cancellation not allowed. Order was placed ",
      " minutes ago, which exceeds our 60-minute cancellation window.", rfl⟩

/-- Witness for C1: the sample order, created 2100 seconds (35.0 minutes)
before the evaluation timestamp, cancels successfully with the refund
string, and its reason embeds the formatted elapsed minutes. -/
theorem C1_witness :
    (order_cancel sampleOrders "A1003" (some mockTimestamp) 0).success = true ∧
    (order_cancel sampleOrders "A1003" (some mockTimestamp) 0).refund_info =
      some "Full refund will be processed within 3-5 business days." ∧
    ∃ pre post, (order_cancel sampleOrders "A1003" (some mockTimestamp) 0).reason =
      pre ++ fmt1 (minutesElapsed (mockTimestamp - 2100) mockTimestamp) ++ post := by
  have h := C1_order_cancel_window sampleOrders "A1003" mockTimestamp 0
    { order_id := "A1003", email := "Mira@Example.com"
      created_at := mockTimestamp - 2100, items := [{ id := "P1", size := "M" }] }
    (by decide)
  have hm : minutesElapsed ((mockTimestamp : Int) - 2100) mockTimestamp ≤ 60 := by
    unfold minutesElapsed
    push_cast
    norm_num
  exact ⟨h.1.mpr hm, (h.2.1 hm).1, (h.2.1 hm).2⟩

/-! ## C4 -/

/-- C4: the Policy Guard surfaces the cancellation engine's decision
verbatim whenever "order_cancel" ran; otherwise it sets the fixed
3-alternative refusal when the raw text contains both "discount" and
"code" case-insensitively; otherwise the decision is absent.  At most one
condition fires, cancellation taking precedence (whenever the key is
present the decision is a cancellation decision, never the refusal). -/
theorem C4_policy_guard (st : AgentState) :
    (∀ cr, lookupTR "order_cancel" st.tool_results = some (.cancelRes cr) →
      (policy_guard_node st).policy_decision = some (.cancel cr.policy_decision)) ∧
    (∀ tr, lookupTR "order_cancel" st.tool_results = some tr →
      ∃ cp, (policy_guard_node st).policy_decision = some (.cancel cp)) ∧
    (lookupTR "order_cancel" st.tool_results = none →
      strContains (strLower st.user_input) "discount" = true →
      strContains (strLower st.user_input) "code" = true →
      (policy_guard_node st).policy_decision = some (.refusal discountRefusal) ∧
      discountRefusal.alternatives.length = 3) ∧
    (lookupTR "order_cancel" st.tool_results = none →
      (strContains (strLower st.user_input) "discount" = false ∨
        strContains (strLower st.user_input) "code" = false) →
      (policy_guard_node st).policy_decision = none) := by
  refine ⟨?_, ?_, ?_, ?_⟩
  · intro cr hcr
    simp [policy_guard_node, hcr, cancelPolicyOf]
  · intro tr htr
    exact ⟨cancelPolicyOf tr, by simp [policy_guard_node, htr]⟩
  · intro hn hd hc
    exact ⟨by simp [policy_guard_node, hn, hd, hc], rfl⟩
  · intro hn hor
    rcases hor with h | h <;> simp [policy_guard_node, hn, h]

/-- Witness for C4 (discount branch): on a raw text containing "discount"
and "code" with no cancellation result recorded, the guard sets the fixed
refusal with its 3 alternatives. -/
theorem C4_witness :
    (policy_guard_node (initial_state "Can you give me a discount code?")).policy_decision =
      some (.refusal discountRefusal) ∧
    discountRefusal.alternatives.length = 3 :=
  (C4_policy_guard (initial_state "Can you give me a discount code?")).2.2.1
    (by decide) (by decide) (by decide)

/-! ## C6 -/

/-- C6: the request entry point is a total function (it cannot raise — its
Lean type returns a `ProcessResult` for every input), and any internal
failure during graph invocation is converted into the degraded trace with
intent "error", empty tools_called and evidence lists, and the fixed
apology as the final message; without a failure it returns the pipeline's
trace unchanged. -/
theorem C6_process_never_raises (classify : Except String String) (l : Loaders)
    (realNow : Int) (text e : String) :
    process_message classify l realNow (some e) text =
      { json_trace :=
          { intent := "error", tools_called := [], evidence := []
            policy_decision := some (.errObj e), final_message := processApology }
        final_message := processApology } ∧
    process_message classify l realNow none text =
      { json_trace := (run_graph classify l realNow text).json_trace
        final_message := (run_graph classify l realNow text).final_message } :=
  ⟨rfl, rfl⟩

/-! ## Dispatcher helper lemmas -/

/-- With a healthy order store, the pipeline's `order_lookup` wrapper
returns the pure lookup. -/
theorem order_lookupE_ok {l : Loaders} {os : List Order} (h : l.orders = .ok os)
    (oid em : String) : order_lookupE l oid em = .ok (order_lookup os oid em) := by
  simp [order_lookupE, h]

/-- With a broken order store, the wrapper propagates the error. -/
theorem order_lookupE_error {l : Loaders} {e : String} (h : l.orders = .error e)
    (oid em : String) : order_lookupE l oid em = .error e := by
  simp [order_lookupE, h]

/-- With a healthy order store, the pipeline's `order_cancel` wrapper
returns the pure cancellation decision. -/
theorem order_cancelE_ok {l : Loaders} {os : List Order} (h : l.orders = .ok os)
    (oid : String) (ts : Option Int) (n : Int) :
    order_cancelE l oid ts n = .ok (order_cancel os oid ts n) := by
  simp [order_cancelE, h]

/-- With a healthy catalog, the pipeline's `product_search` wrapper returns
the pure search. -/
theorem product_searchE_ok {l : Loaders} {ps : List Product} (h : l.products = .ok ps)
    (q : String) (pm : Int) (tg : Option (List String)) :
    product_searchE l q pm tg = .ok (product_search ps q pm tg) := by
  simp [product_searchE, h]

/-- With a broken catalog, the wrapper propagates the error. -/
theorem product_searchE_error {l : Loaders} {e : String} (h : l.products = .error e)
    (q : String) (pm : Int) (tg : Option (List String)) :
    product_searchE l q pm tg = .error e := by
  simp [product_searchE, h]

/-- In the product branch, the recorded names are exactly the result keys,
in invocation order. -/
theorem product_assist_tools_calls_eq_keys (l : Loaders) (lowered rawInput : String) :
    (product_assist_tools l lowered rawInput).1 =
      (product_assist_tools l lowered rawInput).2.1.map Prod.fst := by
  unfold product_assist_tools
  cases hps : product_searchE l (build_query lowered) (extract_price (splitWs lowered)) none <;>
  cases hz : extractZip rawInput <;>
  by_cases hs : (strContains lowered "size" || strContains lowered "m/l"
      || strContains lowered "between") = true <;>
  simp [hps, hz, hs]

/-- In the order branch, the recorded names are exactly the result keys,
in invocation order. -/
theorem order_help_tools_calls_eq_keys (l : Loaders) (n : Int) (lowered rawInput : String) :
    (order_help_tools l n lowered rawInput).1 =
      (order_help_tools l n lowered rawInput).2.1.map Prod.fst := by
  unfold order_help_tools
  repeat' split
  all_goals simp

/-- With no order-id token, the order branch records nothing. -/
theorem order_help_tools_no_oid {rawInput : String} (l : Loaders) (n : Int)
    (lowered : String) (h : extractOrderId rawInput = none) :
    order_help_tools l n lowered rawInput = ([], [], []) := by
  simp [order_help_tools, h]

/-- With no email token, the order branch records nothing. -/
theorem order_help_tools_no_email {rawInput : String} (l : Loaders) (n : Int)
    (lowered : String) (h : extractEmail rawInput = none) :
    order_help_tools l n lowered rawInput = ([], [], []) := by
  cases hoid : extractOrderId rawInput <;> simp [order_help_tools, hoid, h]

/-- A lookup failure (broken order store) is swallowed: nothing recorded. -/
theorem order_help_tools_lookup_err {rawInput : String} {oid em e : String} (l : Loaders)
    (n : Int) (lowered : String) (hoid : extractOrderId rawInput = some oid)
    (hem : extractEmail rawInput = some em) (herr : order_lookupE l oid em = .error e) :
    order_help_tools l n lowered rawInput = ([], [], []) := by
  simp [order_help_tools, hoid, hem, herr]

/-- A lookup that finds no order still records the lookup, with `none` as
its stored result. -/
theorem order_help_tools_not_found {rawInput : String} {oid em : String} (l : Loaders)
    (n : Int) (lowered : String) (hoid : extractOrderId rawInput = some oid)
    (hem : extractEmail rawInput = some em) (hok : order_lookupE l oid em = .ok none) :
    order_help_tools l n lowered rawInput =
      (["order_lookup"], [("order_lookup", ToolResult.orderRes none)], []) := by
  simp [order_help_tools, hoid, hem, hok]

/-- A found order without "cancel" in the text records only the lookup. -/
theorem order_help_tools_found_nocancel {rawInput : String} {oid em : String} {o : Order}
    (l : Loaders) (n : Int) (lowered : String) (hoid : extractOrderId rawInput = some oid)
    (hem : extractEmail rawInput = some em) (hok : order_lookupE l oid em = .ok (some o))
    (hcan : strContains lowered "cancel" = false) :
    order_help_tools l n lowered rawInput =
      (["order_lookup"], [("order_lookup", ToolResult.orderRes (some o))], [orderEvidence o]) := by
  simp [order_help_tools, hoid, hem, hok, hcan]

/-- A found order with "cancel" in the text additionally records the
cancellation decision. -/
theorem order_help_tools_cancel {rawInput : String} {oid em : String} {o : Order}
    {cr : CancelResult} (l : Loaders) (n : Int) (lowered : String)
    (hoid : extractOrderId rawInput = some oid) (hem : extractEmail rawInput = some em)
    (hok : order_lookupE l oid em = .ok (some o))
    (hcan : strContains lowered "cancel" = true)
    (hcanE : order_cancelE l oid (some mockTimestamp) n = .ok cr) :
    order_help_tools l n lowered rawInput =
      (["order_lookup", "order_cancel"],
       [("order_lookup", ToolResult.orderRes (some o)),
        ("order_cancel", ToolResult.cancelRes cr)],
       [orderEvidence o]) := by
  simp [order_help_tools, hoid, hem, hok, hcan, hcanE]

/-- `tool_selector_node` on intent `product_assist`. -/
theorem tool_selector_product {st : AgentState} (l : Loaders) (n : Int)
    (h : st.intent = "product_assist") :
    tool_selector_node l n st =
      { st with
          tools_called := (product_assist_tools l (strLower st.user_input) st.user_input).1
          tool_results := (product_assist_tools l (strLower st.user_input) st.user_input).2.1
          evidence := (product_assist_tools l (strLower st.user_input) st.user_input).2.2 } := by
  simp [tool_selector_node, h]

/-- `tool_selector_node` on intent `order_help`. -/
theorem tool_selector_order {st : AgentState} (l : Loaders) (n : Int)
    (h : st.intent = "order_help") :
    tool_selector_node l n st =
      { st with
          tools_called := (order_help_tools l n (strLower st.user_input) st.user_input).1
          tool_results := (order_help_tools l n (strLower st.user_input) st.user_input).2.1
          evidence := (order_help_tools l n (strLower st.user_input) st.user_input).2.2 } := by
  simp [tool_selector_node, h]

/-- `tool_selector_node` on any other intent records nothing. -/
theorem tool_selector_other {st : AgentState} (l : Loaders) (n : Int)
    (h1 : st.intent ≠ "product_assist") (h2 : st.intent ≠ "order_help") :
    tool_selector_node l n st =
      { st with tools_called := [], tool_results := [], evidence := [] } := by
  simp [tool_selector_node, h1, h2]

/-- The product branch never records an "order_cancel" key. -/
theorem product_assist_no_cancel_key (l : Loaders) (lowered rawInput : String) :
    lookupTR "order_cancel" (product_assist_tools l lowered rawInput).2.1 = none := by
  unfold product_assist_tools
  cases hps : product_searchE l (build_query lowered) (extract_price (splitWs lowered)) none <;>
  cases hz : extractZip rawInput <;>
  by_cases hs : (strContains lowered "size" || strContains lowered "m/l"
      || strContains lowered "between") = true <;>
  simp [hps, hz, hs, lookupTR]

/-- `order_cancel` with an explicit timestamp never reads the real clock. -/
theorem order_cancel_clock_indep (os : List Order) (oid : String) (t n1 n2 : Int) :
    order_cancel os oid (some t) n1 = order_cancel os oid (some t) n2 := by
  unfold order_cancel
  cases find_order os oid <;> rfl

/-- Same, lifted through the fallible load. -/
theorem order_cancelE_clock_indep (l : Loaders) (oid : String) (t n1 n2 : Int) :
    order_cancelE l oid (some t) n1 = order_cancelE l oid (some t) n2 := by
  cases h : l.orders with
  | error e => simp [order_cancelE, h]
  | ok os =>
      have hc := order_cancel_clock_indep os oid t n1 n2
      simp [order_cancelE, h, hc]

/-- The order branch is independent of the real clock (it always pins the
mock timestamp). -/
theorem order_help_tools_clock_indep (l : Loaders) (n1 n2 : Int) (lowered rawInput : String) :
    order_help_tools l n1 lowered rawInput = order_help_tools l n2 lowered rawInput := by
  have hc : ∀ oid, order_cancelE l oid (some mockTimestamp) n1 =
      order_cancelE l oid (some mockTimestamp) n2 :=
    fun oid => order_cancelE_clock_indep l oid mockTimestamp n1 n2
  simp only [order_help_tools, hc]

/-! ## C10 -/

/-- C10: after the dispatcher finishes, the list of names in `tools_called`
equals the list of keys of `tool_results` in invocation order; in
particular a lookup that finds no order still records "order_lookup", with
the absent value stored under it. -/
theorem C10_tools_called_eq_result_keys (l : Loaders) (realNow : Int) (st : AgentState) :
    (tool_selector_node l realNow st).tools_called =
      ((tool_selector_node l realNow st).tool_results).map Prod.fst ∧
    (∀ os oid em, l.orders = .ok os → st.intent = "order_help" →
      extractOrderId st.user_input = some oid →
      extractEmail st.user_input = some em →
      order_lookup os oid em = none →
      "order_lookup" ∈ (tool_selector_node l realNow st).tools_called ∧
      lookupTR "order_lookup" (tool_selector_node l realNow st).tool_results =
        some (.orderRes none)) := by
  constructor
  · by_cases h1 : st.intent = "product_assist"
    · rw [tool_selector_product l realNow h1]
      exact product_assist_tools_calls_eq_keys l (strLower st.user_input) st.user_input
    · by_cases h2 : st.intent = "order_help"
      · rw [tool_selector_order l realNow h2]
        exact order_help_tools_calls_eq_keys l realNow (strLower st.user_input) st.user_input
      · rw [tool_selector_other l realNow h1 h2]
        rfl
  · intro os oid em hos hintent hoid hem hnone
    have hok : order_lookupE l oid em = .ok none := by
      rw [order_lookupE_ok hos oid em, hnone]
    rw [tool_selector_order l realNow hintent,
        order_help_tools_not_found l realNow (strLower st.user_input) hoid hem hok]
    exact ⟨by simp, by simp [lookupTR]⟩

/-- Witness for C10: a concrete order-help request whose id/email pair
matches no order still records the lookup with the absent value. -/
theorem C10_witness :
    "order_lookup" ∈
      (tool_selector_node ⟨.ok [], .ok sampleOrders⟩ 0
        { initial_state "Status of order A9999? email no@match.com" with
            intent := "order_help" }).tools_called ∧
    lookupTR "order_lookup"
      (tool_selector_node ⟨.ok [], .ok sampleOrders⟩ 0
        { initial_state "Status of order A9999? email no@match.com" with
            intent := "order_help" }).tool_results = some (.orderRes none) :=
  (C10_tools_called_eq_result_keys ⟨.ok [], .ok sampleOrders⟩ 0
      { initial_state "Status of order A9999? email no@match.com" with
          intent := "order_help" }).2
    sampleOrders "A9999" "no@match.com" rfl rfl (by decide) (by decide) (by decide)

/-! ## C3 -/

/-- C3: for intent `order_help` (with a readable order store), the
dispatcher records `order_lookup` iff both an order-id token and an
email-shaped token are present in the text (if either is absent it records
no tool call at all), and it records `order_cancel` iff the lookup found an
order and the text contains "cancel". -/
theorem C3_order_help_dispatch (l : Loaders) (realNow : Int) (st : AgentState)
    (os : List Order) (hos : l.orders = .ok os) (hintent : st.intent = "order_help") :
    ("order_lookup" ∈ (tool_selector_node l realNow st).tools_called ↔
      (extractOrderId st.user_input).isSome = true ∧
      (extractEmail st.user_input).isSome = true) ∧
    ((extractOrderId st.user_input = none ∨ extractEmail st.user_input = none) →
      (tool_selector_node l realNow st).tools_called = [] ∧
      (tool_selector_node l realNow st).tool_results = []) ∧
    ("order_cancel" ∈ (tool_selector_node l realNow st).tools_called ↔
      ∃ oid em o, extractOrderId st.user_input = some oid ∧
        extractEmail st.user_input = some em ∧
        order_lookup os oid em = some o ∧
        strContains (strLower st.user_input) "cancel" = true) := by
  rw [tool_selector_order l realNow hintent]
  cases hoid : extractOrderId st.user_input with
  | none =>
      rw [order_help_tools_no_oid l realNow (strLower st.user_input) hoid]
      refine ⟨by simp, fun _ => ⟨rfl, rfl⟩, by simp⟩
  | some oid =>
      cases hem : extractEmail st.user_input with
      | none =>
          rw [order_help_tools_no_email l realNow (strLower st.user_input) hem]
          refine ⟨by simp, fun _ => ⟨rfl, rfl⟩, by simp⟩
      | some em =>
          have hok := order_lookupE_ok hos oid em
          cases hlook : order_lookup os oid em with
          | none =>
              rw [order_help_tools_not_found l realNow (strLower st.user_input) hoid hem
                (by rw [hok, hlook])]
              refine ⟨by simp, by simp, ?_⟩
              simp only [List.mem_singleton]
              constructor
              · intro h; exact absurd h (by decide)
              · rintro ⟨oid', em', o', hoid', hem', hlook', -⟩
                obtain rfl := Option.some_inj.mp hoid'
                obtain rfl := Option.some_inj.mp hem'
                rw [hlook] at hlook'
                exact absurd hlook' (by simp)
          | some o =>
              by_cases hcan : strContains (strLower st.user_input) "cancel" = true
              · have hcanE := order_cancelE_ok hos oid (some mockTimestamp) realNow
                rw [order_help_tools_cancel l realNow (strLower st.user_input) hoid hem
                  (by rw [hok, hlook]) hcan hcanE]
                refine ⟨by simp, by simp, ?_⟩
                constructor
                · intro _; exact ⟨oid, em, o, rfl, rfl, hlook, hcan⟩
                · intro _; simp
              · rw [order_help_tools_found_nocancel l realNow (strLower st.user_input) hoid hem
                  (by rw [hok, hlook]) (Bool.eq_false_iff.mpr hcan)]
                refine ⟨by simp, by simp, ?_⟩
                simp only [List.mem_singleton]
                constructor
                · intro h; exact absurd h (by decide)
                · rintro ⟨oid', em', o', hoid', hem', -, hcan'⟩
                  exact absurd hcan' hcan

/-- Witness for C3: both tokens present and no "cancel" in the text — the
lookup is recorded (and only it). -/
theorem C3_witness :
    "order_lookup" ∈
      (tool_selector_node ⟨.ok [], .ok sampleOrders⟩ 0
        { initial_state "Where is order A1003? email mira@example.com" with
            intent := "order_help" }).tools_called :=
  (C3_order_help_dispatch ⟨.ok [], .ok sampleOrders⟩ 0
      { initial_state "Where is order A1003? email mira@example.com" with
          intent := "order_help" }
      sampleOrders rfl rfl).1.mpr ⟨by decide, by decide⟩

/-! ## C9 -/

/-- The dispatcher's output never depends on the real clock. -/
theorem tool_selector_clock_indep (l : Loaders) (n1 n2 : Int) (st : AgentState) :
    tool_selector_node l n1 st = tool_selector_node l n2 st := by
  simp only [tool_selector_node, order_help_tools_clock_indep l n1 n2]

/-- C9: the dispatcher's output is identical for any two values of the real
clock — hence so is the whole request's result for the same text, catalog
and classifier output — and whenever an "order_cancel" result is recorded
it is the cancellation decision evaluated at the fixed mock timestamp: the
real-time default of `order_cancel` is never exercised through the
pipeline. -/
theorem C9_dispatcher_clock_independent (l : Loaders) (st : AgentState) (n1 n2 : Int) :
    tool_selector_node l n1 st = tool_selector_node l n2 st ∧
    (∀ classify crash text,
      process_message classify l n1 crash text = process_message classify l n2 crash text) ∧
    (∀ r, lookupTR "order_cancel" (tool_selector_node l n1 st).tool_results = some r →
      ∃ os oid, l.orders = .ok os ∧
        r = .cancelRes (order_cancel os oid (some mockTimestamp) n1)) := by
  refine ⟨tool_selector_clock_indep l n1 n2 st, ?_, ?_⟩
  · intro classify crash text
    cases crash with
    | some e => rfl
    | none =>
        simp only [process_message, run_graph,
          tool_selector_clock_indep l n1 n2 (router_node classify (initial_state text))]
  · intro r hr
    by_cases h1 : st.intent = "product_assist"
    · rw [tool_selector_product l n1 h1] at hr
      simp [product_assist_no_cancel_key] at hr
    · by_cases h2 : st.intent = "order_help"
      · rw [tool_selector_order l n1 h2] at hr
        cases hoid : extractOrderId st.user_input with
        | none =>
            rw [order_help_tools_no_oid l n1 (strLower st.user_input) hoid] at hr
            simp [lookupTR] at hr
        | some oid =>
            cases hem : extractEmail st.user_input with
            | none =>
                rw [order_help_tools_no_email l n1 (strLower st.user_input) hem] at hr
                simp [lookupTR] at hr
            | some em =>
                cases hos : l.orders with
                | error e =>
                    rw [order_help_tools_lookup_err l n1 (strLower st.user_input) hoid hem
                      (order_lookupE_error hos oid em)] at hr
                    simp [lookupTR] at hr
                | ok os =>
                    have hok := order_lookupE_ok hos oid em
                    cases hlook : order_lookup os oid em with
                    | none =>
                        rw [order_help_tools_not_found l n1 (strLower st.user_input) hoid hem
                          (by rw [hok, hlook])] at hr
                        simp [lookupTR] at hr
                    | some o =>
                        by_cases hcan : strContains (strLower st.user_input) "cancel" = true
                        · have hcanE := order_cancelE_ok hos oid (some mockTimestamp) n1
                          rw [order_help_tools_cancel l n1 (strLower st.user_input) hoid hem
                            (by rw [hok, hlook]) hcan hcanE] at hr
                          simp only [lookupTR] at hr
                          simp at hr
                          exact ⟨os, oid, rfl, hr.symm⟩
                        · rw [order_help_tools_found_nocancel l n1 (strLower st.user_input)
                            hoid hem (by rw [hok, hlook]) (Bool.eq_false_iff.mpr hcan)] at hr
                          simp [lookupTR] at hr
      · rw [tool_selector_other l n1 h1 h2] at hr
        simp [lookupTR] at hr

/-- An order-help state as it reaches the dispatcher (used by witnesses):
fresh initial state with the router's classified intent filled in. -/
def order_help_state (text : String) : AgentState :=
  { user_input := text, intent := "order_help", tools_called := [], tool_results := []
    evidence := [], policy_decision := none, final_message := "", json_trace := emptyTrace }

/-- Witness for C9: a concrete cancellation request dispatched under two
different real-clock values produces identical states, and the recorded
cancellation decision is the one evaluated at the mock timestamp. -/
theorem C9_witness :
    tool_selector_node ⟨.ok [], .ok sampleOrders⟩ 1
        (order_help_state "Please cancel order A1003, email mira@example.com") =
      tool_selector_node ⟨.ok [], .ok sampleOrders⟩ 2
        (order_help_state "Please cancel order A1003, email mira@example.com") ∧
    ∃ os oid, (Loaders.mk (.ok []) (.ok sampleOrders)).orders = .ok os ∧
      ToolResult.cancelRes (order_cancel sampleOrders "A1003" (some mockTimestamp) 1) =
        .cancelRes (order_cancel os oid (some mockTimestamp) 1) := by
  have h := C9_dispatcher_clock_independent ⟨.ok [], .ok sampleOrders⟩
    (order_help_state "Please cancel order A1003, email mira@example.com") 1 2
  refine ⟨h.1, ?_⟩

  have hoid : extractOrderId
      (order_help_state "Please cancel order A1003, email mira@example.com").user_input =
      some "A1003" := by decide
  have hem : extractEmail
      (order_help_state "Please cancel order A1003, email mira@example.com").user_input =
      some "mira@example.com" := by decide
  have hlook : order_lookup sampleOrders "A1003" "mira@example.com" = some sampleOrder := by
    decide
  have hok : order_lookupE ⟨.ok [], .ok sampleOrders⟩ "A1003" "mira@example.com" =
      .ok (some sampleOrder) := by
    rw [order_lookupE_ok rfl, hlook]
  have hcan : strContains
      (strLower (order_help_state
        "Please cancel order A1003, email mira@example.com").user_input) "cancel" = true := by
    decide
  have hcanE := order_cancelE_ok (l := ⟨.ok [], .ok sampleOrders⟩) rfl "A1003"
    (some mockTimestamp) 1
  have hr : lookupTR "order_cancel"
      (tool_selector_node ⟨.ok [], .ok sampleOrders⟩ 1
        (order_help_state "Please cancel order A1003, email mira@example.com")).tool_results =
      some (.cancelRes (order_cancel sampleOrders "A1003" (some mockTimestamp) 1)) := by
    rw [tool_selector_order ⟨.ok [], .ok sampleOrders⟩ 1 rfl,
        order_help_tools_cancel ⟨.ok [], .ok sampleOrders⟩ 1 _ hoid hem hok hcan hcanE]
    simp [lookupTR]
  exact h.2.2 _ hr

/-! ## C5 -/

/-- Counterexample to C5: with an unreadable product catalog, a
product-assist request does NOT fail at the request level — the dispatcher
catches the I/O error, the trace keeps the normal intent (not "error"),
no tool call is recorded, and the composer still renders a normal reply.
The failure is swallowed by the pipeline. -/
theorem C5_counterexample :
    (process_message (.ok "product_assist") ⟨.error "products.json unreadable", .ok []⟩ 0 none
      "find me a dress").json_trace.intent = "product_assist" ∧
    (process_message (.ok "product_assist") ⟨.error "products.json unreadable", .ok []⟩ 0 none
      "find me a dress").json_trace.intent ≠ "error" ∧
    (process_message (.ok "product_assist") ⟨.error "products.json unreadable", .ok []⟩ 0 none
      "find me a dress").json_trace.tools_called = [] ∧
    (process_message (.ok "product_assist") ⟨.error "products.json unreadable", .ok []⟩ 0 none
      "find me a dress").final_message =
      "\nWould you like more details about any of these options?" :=
  ⟨by decide, by decide, by decide, by decide⟩

/-- C5 (amended): `load_products` / `load_orders` failures do propagate out
of the individual tool call (the tool wrappers return the error), but
`tool_selector_node` catches every tool exception and completes the request
normally, omitting the failing tool — the failure never reaches the caller
as a request-level failure. -/
theorem C5_amended_load_failure_swallowed (l : Loaders) (e : String) :
    (l.products = .error e → ∀ q pm tg, product_searchE l q pm tg = .error e) ∧
    (l.orders = .error e → ∀ oid em, order_lookupE l oid em = .error e) ∧
    (l.products = .error e → ∀ st n, st.intent = "product_assist" →
      "product_search" ∉ (tool_selector_node l n st).tools_called) ∧
    (l.orders = .error e → ∀ st n, st.intent = "order_help" →
      (tool_selector_node l n st).tools_called = []) := by
  refine ⟨fun h q pm tg => product_searchE_error h q pm tg,
          fun h oid em => order_lookupE_error h oid em, ?_, ?_⟩
  · intro h st n hintent
    rw [tool_selector_product l n hintent]
    show "product_search" ∉ (product_assist_tools l (strLower st.user_input) st.user_input).1
    unfold product_assist_tools
    simp only [product_searchE_error h]
    cases hz : extractZip st.user_input <;>
    by_cases hs : (strContains (strLower st.user_input) "size"
        || strContains (strLower st.user_input) "m/l"
        || strContains (strLower st.user_input) "between") = true <;>
    simp [hz, hs]
  · intro h st n hintent
    rw [tool_selector_order l n hintent]
    show (order_help_tools l n (strLower st.user_input) st.user_input).1 = []
    cases hoid : extractOrderId st.user_input with
    | none => rw [order_help_tools_no_oid l n (strLower st.user_input) hoid]
    | some oid =>
        cases hem : extractEmail st.user_input with
        | none => rw [order_help_tools_no_email l n (strLower st.user_input) hem]
        | some em =>
            rw [order_help_tools_lookup_err l n (strLower st.user_input) hoid hem
              (order_lookupE_error h oid em)]

/-- Witness for the amended C5: concrete broken loaders at a concrete
request. -/
theorem C5_amended_witness :
    product_searchE ⟨.error "boom", .ok []⟩ "dress" 1000 none = .error "boom" ∧
    order_lookupE ⟨.ok [], .error "boom"⟩ "A1003" "mira@example.com" = .error "boom" ∧
    "product_search" ∉
      (tool_selector_node ⟨.error "boom", .ok []⟩ 0
        { user_input := "find me a dress", intent := "product_assist", tools_called := []
          tool_results := [], evidence := [], policy_decision := none, final_message := ""
          json_trace := emptyTrace }).tools_called ∧
    (tool_selector_node ⟨.ok [], .error "boom"⟩ 0
      (order_help_state "Please cancel order A1003, email mira@example.com")).tools_called = [] :=
  ⟨(C5_amended_load_failure_swallowed ⟨.error "boom", .ok []⟩ "boom").1 rfl "dress" 1000 none,
   (C5_amended_load_failure_swallowed ⟨.ok [], .error "boom"⟩ "boom").2.1 rfl "A1003"
     "mira@example.com",
   (C5_amended_load_failure_swallowed ⟨.error "boom", .ok []⟩ "boom").2.2.1 rfl
     { user_input := "find me a dress", intent := "product_assist", tools_called := []
       tool_results := [], evidence := [], policy_decision := none, final_message := ""
       json_trace := emptyTrace } 0 rfl,
   (C5_amended_load_failure_swallowed ⟨.ok [], .error "boom"⟩ "boom").2.2.2 rfl
     (order_help_state "Please cancel order A1003, email mira@example.com") 0 rfl⟩
